import Mathlib

/-!
Verification development for the salt-server repository.

The repository is a Node/Express service whose core logic is:
(a) create-then-poll loops driving vendor-hosted asynchronous jobs
    (Replicate predictions, Runway image-to-video tasks),
(b) a schema-validated generate-and-retry loop for sermon "angles"
    (zod `AnglesResponse`, 3 attempts), and
(c) a strategy dispatch for the poster pipeline (`/api/generate-final`).

This file shallowly embeds those code paths.  Vendor calls are modelled by
oracles: a status-fetch stream `fetch : Nat -> Prediction` gives the result of
the i-th poll request, and environment records carry the outcome of each
single-shot vendor call.  JavaScript strings are Lean `String`s; JSON values
are the inductive `Json`; JS truthiness of optional strings is `optTruthy`.
Unbounded `while` loops are embedded with an explicit fuel parameter: a
`none` result means the loop has not terminated within `fuel` iterations.
-/

/-- JS truthiness of a possibly-absent string field: `undefined`/`null` and
the empty string are falsy, every other string is truthy. -/
def optTruthy : Option String → Bool
  | none => false
  | some s => !s.isEmpty

/-- Models JSON.stringify applied to a plain string that needs no escaping:
wraps it in double quotes.  (The server only stringifies vendor error
strings, which are plain text.) -/
def jsStringifyStr (s : String) : String := "\"" ++ s ++ "\""

/- ───────────────────────── Replicate polling model ───────────────────── -/

/-- A vendor `output` value as handled by the routes: the code only
distinguishes strings, arrays, and anything else (`typeof imageUrl ===
'string'`, `Array.isArray(result.output)`). -/
inductive JVal where
  | str (s : String)
  | arr (items : List JVal)
  | other
deriving Repr

/-- A Replicate prediction object as read by the poll loops: its `status`
string, its `output` (absent unless the vendor set it) and its `error`. -/
structure Prediction where
  status : String
  output : Option JVal
  error : Option String

/-- The loop guard of every Replicate poll loop in the repository:
`result.status === 'starting' || result.status === 'processing'`. -/
def isActiveRepl (s : String) : Bool := s == "starting" || s == "processing"

/-- The `generateImageFromPrompt` poll loop (also the shape of the
`/api/edit-image` and `/api/photographer` loops, minus any ceiling):
`while (result.status === 'starting' || result.status === 'processing')`
re-fetch.  `cur` is the current prediction, `polls` the number of status
fetches already issued, `fetch i` the result of the i-th fetch.  The last
argument is fuel: `none` means the loop is still running after that many
iterations.  `generateImageFromPrompt` itself has NO poll ceiling. -/
def replicatePoll (fetch : Nat → Prediction) (cur : Prediction) (polls : Nat) :
    Nat → Option (Nat × Prediction)
  | 0 => if isActiveRepl cur.status then none else some (polls, cur)
  | fuel + 1 =>
    if isActiveRepl cur.status then
      replicatePoll fetch (fetch polls) (polls + 1) fuel
    else
      some (polls, cur)

/-- The `/api/edit-image` poll loop (identical in `/api/photographer`):
`while ((result.status === 'starting' || result.status === 'processing')
&& pollCount < maxPolls)` with `maxPolls = 60`.  Returns the final
`pollCount` and the last prediction.  This loop needs no fuel: the
ceiling makes it terminate. -/
def editImagePoll (fetch : Nat → Prediction) (cur : Prediction) (pollCount : Nat) :
    Nat × Prediction :=
  if h : isActiveRepl cur.status = true ∧ pollCount < 60 then
    editImagePoll fetch (fetch pollCount) (pollCount + 1)
  else
    (pollCount, cur)
termination_by 60 - pollCount
decreasing_by omega

/-- A route-level HTTP outcome: a JSON `{ imageUrl }` success or an error
status with its message string. -/
inductive RouteResult where
  | ok (imageUrl : String)
  | err (code : Nat) (msg : String)
deriving Repr

/-- Computes `Array.isArray(result.output) ? result.output[0] : result.output`;
`output[0]` of an empty array is `undefined`. -/
def outFirst : Option JVal → Option JVal
  | some (JVal.arr items) => items.head?
  | some v => some v
  | none => none

/-- Computes `result.error ? JSON.stringify(result.error) : 'Status: ' + result.status`. -/
def editFailureReason (p : Prediction) : String :=
  if optTruthy p.error then jsStringifyStr (p.error.getD "")
  else "Status: " ++ p.status

/-- JS truthiness of `result.output`. -/
def jvalTruthy : Option JVal → Bool
  | none => false
  | some (JVal.str s) => !s.isEmpty
  | some (JVal.arr _) => true
  | some JVal.other => true

/-- The response logic after the `/api/edit-image` poll loop:
on `status === 'succeeded'` with truthy output whose first element is a
string, answer `{ imageUrl }`; otherwise a 500 `Image edit failed` error. -/
def editImageRespond (p : Prediction) : RouteResult :=
  if p.status == "succeeded" && jvalTruthy p.output then
    match outFirst p.output with
    | some (JVal.str s) => RouteResult.ok s
    | _ => RouteResult.err 500 ("Image edit failed: " ++ editFailureReason p)
  else
    RouteResult.err 500 ("Image edit failed: " ++ editFailureReason p)

/-- The `/api/edit-image` handler from the creation response on: poll, then
respond (`init` is the prediction returned by the creation request). -/
def editImageRoute (init : Prediction) (fetch : Nat → Prediction) : RouteResult :=
  editImageRespond (editImagePoll fetch init 0).2

/- ───────────────────────── Runway polling model ──────────────────────── -/

/-- A Runway task object: its `status` string, its `output` list of URLs,
and the vendor error payload (present on failed/canceled tasks; the code
never reads it). -/
structure RunwayTask where
  status : String
  output : List String
  error : Option String

/-- The Runway loop exit test:
`['SUCCEEDED', 'FAILED'].includes(status.status)`. -/
def runwayTerminalStatus (s : String) : Bool := s == "SUCCEEDED" || s == "FAILED"

/-- The Runway `animateImage` poll loop, a do-while: fetch, then repeat
until the fetched status is `SUCCEEDED` or `FAILED`.  `polls` counts the
fetches already issued; the result carries how many fetches were issued in
total.  Fuel-indexed: `none` means still polling after `fuel` fetches. -/
def runwayPoll (fetch : Nat → RunwayTask) (polls : Nat) :
    Nat → Option (Nat × RunwayTask)
  | 0 => none
  | fuel + 1 =>
    let t := fetch polls
    if runwayTerminalStatus t.status then some (polls + 1, t)
    else runwayPoll fetch (polls + 1) fuel

/-- The Runway `animateImage` tail (src/src/server.js): after the loop,
`if (status.status === 'FAILED') throw new Error('Runway task failed')`,
else return `status.output[0]`.  The thrown message is a constant. -/
def runwayAnimate (fetch : Nat → RunwayTask) (fuel : Nat) :
    Option (Except String String) :=
  match runwayPoll fetch 0 fuel with
  | none => none
  | some (_, t) =>
    if t.status == "FAILED" then some (Except.error "Runway task failed")
    else some (Except.ok (t.output.headD ""))

/- ───────────── Replicate animateImage / removeBackground tail ────────── -/

/-- The result handling of the Replicate `animateImage` (part_000, after
`replicate.wait`): succeeded returns the output; failed or canceled throws
with the vendor error interpolated; anything else throws an
unexpected-status error.  `error` holds the string interpolation of the
vendor's `error` field. -/
structure ReplicateDone where
  status : String
  outputVal : String
  error : String

/-- The `if`/`throw` chain after `replicate.wait` in `animateImage`
(identical in `removeBackground` up to the message prefix). -/
def animateHandleResult (p : ReplicateDone) : Except String String :=
  if p.status == "succeeded" then Except.ok p.outputVal
  else if p.status == "failed" || p.status == "canceled" then
    Except.error ("Replicate prediction failed: " ++ p.error)
  else
    Except.error ("Replicate prediction ended with unexpected status: " ++ p.status)

/-- The whole Replicate `animateImage` error surface: the surrounding
`catch` re-wraps any thrown message as `Replicate API Error: ...`. -/
def animateImageRepl (p : ReplicateDone) : Except String String :=
  match animateHandleResult p with
  | Except.ok v => Except.ok v
  | Except.error m => Except.error ("Replicate API Error: " ++ m)

/- ─────────────── /api/flavor angle generation (ValidatedRetrier) ─────── -/

/-- A JSON value as produced by `JSON.parse` in `callForAngles`. -/
inductive Json where
  | null
  | str (s : String)
  | num (n : Int)
  | boolean (b : Bool)
  | arr (items : List Json)
  | obj (fields : List (String × Json))

/-- A validated sermon angle: the zod `Angle` schema requires the three
string fields `title`, `summary`, `journey`. -/
structure Angle where
  title : String
  summary : String
  journey : String
deriving DecidableEq, Repr

/-- Property lookup on a parsed JSON object (first binding wins, as for a
JS object literal). -/
def lookupField (fs : List (String × Json)) (k : String) : Option Json :=
  match fs.find? (fun p => p.1 == k) with
  | some p => some p.2
  | none => none

/-- The zod `Angle` schema: an object whose `title`, `summary` and
`journey` properties are present and are strings. -/
def parseAngle : Json → Option Angle
  | Json.obj fs =>
    match lookupField fs "title", lookupField fs "summary", lookupField fs "journey" with
    | some (Json.str t), some (Json.str s), some (Json.str j) => some ⟨t, s, j⟩
    | _, _, _ => none
  | _ => none

/-- The zod `AnglesResponse` schema:
`z.object({ angles: z.array(Angle).min(3).max(5) })`. -/
def parseAnglesResponse : Json → Option (List Angle)
  | Json.obj fs =>
    match lookupField fs "angles" with
    | some (Json.arr items) =>
      match items.mapM parseAngle with
      | some angles =>
        if 3 ≤ angles.length ∧ angles.length ≤ 5 then some angles else none
      | none => none
    | _ => none
  | _ => none

/-- Serialisation of a validated angle back into the JSON response body. -/
def angleToJson (a : Angle) : Json :=
  Json.obj [("title", Json.str a.title), ("summary", Json.str a.summary),
            ("journey", Json.str a.journey)]

/-- The `/api/flavor` angle retry loop:
`while (attempts < 3 && !parsed) { attempts++; raw = await callForAngles(...);
try { parsed = AnglesResponse.parse(raw) } catch {} }`.
`gen i` is the (parsed) model output of the i-th `callForAngles` call; a
`Except.error` value models `JSON.parse` throwing inside `callForAngles`,
which propagates past the loop to the route's outer catch.  The fuel
argument is the number of attempts still allowed (initially 3). -/
def anglesLoop (gen : Nat → Except String Json) (attempts : Nat) :
    Nat → Except String (Nat × Option (List Angle))
  | 0 => Except.ok (attempts, none)
  | fuel + 1 =>
    match gen attempts with
    | Except.error e => Except.error e
    | Except.ok raw =>
      match parseAnglesResponse raw with
      | some v => Except.ok (attempts + 1, some v)
      | none => anglesLoop gen (attempts + 1) fuel

/-- A `/api/flavor` response: a JSON body or an error status with message. -/
inductive FlavorResp where
  | ok (body : Json)
  | err (code : Nat) (msg : String)

/-- The `/api/flavor` angles branch (no `chosenAngle`): run the retry loop;
on no validated value answer
`500 { error: 'Model failed to produce ≥3 angles after 3 tries' }`;
on success answer `{ angles: parsed.angles }`; a thrown exception reaches
the outer catch, which answers `500 { error: err.message }`. -/
def flavorAnglesBranch (gen : Nat → Except String Json) : FlavorResp :=
  match anglesLoop gen 0 3 with
  | Except.error e => FlavorResp.err 500 e
  | Except.ok (_, none) =>
      FlavorResp.err 500 "Model failed to produce ≥3 angles after 3 tries"
  | Except.ok (_, some v) =>
      FlavorResp.ok (Json.obj [("angles", Json.arr (v.map angleToJson))])

/-- Field access on a successful route response body (for stating what the
response does and does not contain). -/
def respField (r : FlavorResp) (k : String) : Option Json :=
  match r with
  | FlavorResp.ok (Json.obj fs) => lookupField fs k
  | _ => none

/- ───────────────────────── /api/aroma validation ─────────────────────── -/

/-- An `/api/aroma` request body: each field may be absent. -/
structure AromaReq where
  type : Option String
  topic : Option String
  keyPoints : Option String
  tone : Option String
  audience : Option String

/-- The whitelist of communication types accepted by `/api/aroma`. -/
def validTypes : List String :=
  ["social-facebook", "social-twitter", "social-instagram",
   "email-newsletter", "email-thankyou", "email-announcement",
   "event-description"]

/-- The `/api/aroma` handler up to the generation call: the first guard
rejects any falsy field with a 400, the second rejects a `type` outside
`validTypes` with a 400; only then is `generateCommunicationDraft`
invoked.  Returns the HTTP status and whether the draft generator was
invoked. -/
def aromaRoute (r : AromaReq) : Nat × Bool :=
  if !(optTruthy r.type && optTruthy r.topic && optTruthy r.keyPoints &&
       optTruthy r.tone && optTruthy r.audience) then
    (400, false)
  else if !(validTypes.contains (r.type.getD "")) then
    (400, false)
  else
    (200, true)

/- ────────────── /api/generate-final strategies and dispatch ──────────── -/

/-- Oracle for the vendor calls made by the three poster strategies: which
calls succeed, their error messages when they throw, and the payload
fields of their responses. -/
structure FinalEnv where
  downloadOk : Bool
  downloadErr : String
  chatOk : Bool
  chatErr : String
  editOk : Bool
  editErr : String
  editB64 : Option String
  editUrl : Option String
  genOk : Bool
  genErr : String
  genB64 : String
  respDownloadOk : Bool
  respDownloadErr : String
  respOk : Bool
  respErr : String
  respOutputs : List (String × String)

/-- The `edit` strategy `generateFinalImage`: download the typography,
write it to a temp file, enhance the description with a chat call, run the
image edit, `fs.unlinkSync` the temp file, then read `b64_json` or `url`
from the response.  Any throw is re-wrapped by the catch as
`Failed to generate final image: ...`.  The second component is whether
the temp file still exists when the function returns or throws: the
unlink runs only after the chat and edit calls have both succeeded. -/
def generateFinalImage (env : FinalEnv) : Except String String × Bool :=
  if !env.downloadOk then
    (Except.error ("Failed to generate final image: " ++ env.downloadErr), false)
  else if !env.chatOk then
    (Except.error ("Failed to generate final image: " ++ env.chatErr), true)
  else if !env.editOk then
    (Except.error ("Failed to generate final image: " ++ env.editErr), true)
  else if optTruthy env.editB64 then
    (Except.ok ("data:image/png;base64," ++ env.editB64.getD ""), false)
  else if optTruthy env.editUrl then
    (Except.ok (env.editUrl.getD ""), false)
  else
    (Except.error "Failed to generate final image: Image data not found in response", false)

/-- The `generate` strategy `generateFinalImageAlternative`: one
text-to-image call, base64 response, no typography input. -/
def generateFinalImageAlternative (env : FinalEnv) : Except String String :=
  if env.genOk then Except.ok ("data:image/png;base64," ++ env.genB64)
  else Except.error ("Failed to generate final image: " ++ env.genErr)

/-- The `responses` strategy `generateFinalImageResponses`: download and
inline the typography, one combined vision call, keep the outputs whose
`type` is `image_generation_call`, take the first result or throw
`No image generated in response`. -/
def generateFinalImageResponses (env : FinalEnv) : Except String String :=
  if !env.respDownloadOk then
    Except.error ("Failed to generate final image: " ++ env.respDownloadErr)
  else if !env.respOk then
    Except.error ("Failed to generate final image: " ++ env.respErr)
  else
    match (env.respOutputs.filter (fun o => o.1 == "image_generation_call")).map
        (fun o => o.2) with
    | [] => Except.error "Failed to generate final image: No image generated in response"
    | b64 :: _ => Except.ok ("data:image/png;base64," ++ b64)

/-- The `/api/generate-final` method dispatch: a `switch (method)` whose
`default` branch calls `generateFinalImage`, i.e. the same function as the
`'edit'` case; the route then answers `{ imageUrl }` or a 500 error. -/
def generateFinalRoute (method : String) (env : FinalEnv) : RouteResult :=
  let strat : Except String String :=
    if method == "edit" then (generateFinalImage env).1
    else if method == "generate" then generateFinalImageAlternative env
    else if method == "responses" then generateFinalImageResponses env
    else (generateFinalImage env).1
  match strat with
  | Except.ok url => RouteResult.ok url
  | Except.error m => RouteResult.err 500 m

/- ───────────────── /api/animate data-URL prefix stripping ────────────── -/

/-- A JS `\w` word character: ASCII letter, digit or underscore. -/
def isWordChar (c : Char) : Bool := c.isAlphanum || c == '_'

/-- A base64-alphabet character (`A`-`Z`, `a`-`z`, `0`-`9`, `+`, `/`, `=`). -/
def isBase64Char (c : Char) : Bool :=
  c.isAlphanum || c == '+' || c == '/' || c == '='

/-- Match a literal character sequence at the head of the input, returning
the remainder on success. -/
def stripLit : List Char → List Char → Option (List Char)
  | [], cs => some cs
  | _ :: _, [] => none
  | l :: ls, c :: cs => if c = l then stripLit ls cs else none

/-- The anchored regex of `/api/animate`,
`^data:image\/\w+;base64,` : the literal `data:image/`, then a nonempty
run of word characters (maximal, as the regex engine takes it, which is
also the only possible match since `;` is not a word character), then the
literal `;base64,`.  Returns the remainder after the match. -/
def matchDataUrl (cs : List Char) : Option (List Char) :=
  match stripLit ("data:image/".toList) cs with
  | none => none
  | some rest =>
    let run := rest.takeWhile isWordChar
    let rest2 := rest.dropWhile isWordChar
    if run.isEmpty then none
    else stripLit (";base64,".toList) rest2

/-- The call `imageBase64.replace(/^data:image\/\w+;base64,/, '')` : remove the
matched prefix if the regex matches, otherwise return the string
unchanged.  Strings are modelled as their character lists. -/
def stripDataUrl (cs : List Char) : List Char :=
  (matchDataUrl cs).getD cs

/- ───────────────────── Concrete inputs used by witnesses ─────────────── -/

/-- An environment in which the typography download and the chat call
succeed but the image-edit call throws. -/
def leakEnv : FinalEnv :=
  { downloadOk := true, downloadErr := "", chatOk := true, chatErr := "",
    editOk := false, editErr := "edit call failed", editB64 := none, editUrl := none,
    genOk := true, genErr := "", genB64 := "", respDownloadOk := true,
    respDownloadErr := "", respOk := true, respErr := "", respOutputs := [] }

/-- A JSON object of the `Angle` shape. -/
def angleJson (t s j : String) : Json :=
  Json.obj [("title", Json.str t), ("summary", Json.str s), ("journey", Json.str j)]

/-- A model output that validates against `AnglesResponse` (three angles). -/
def goodAnglesJson : Json :=
  Json.obj [("angles", Json.arr
    [angleJson "Hope" "s1" "j1", angleJson "Grace" "s2" "j2", angleJson "Light" "s3" "j3"])]

/- ───────────────────────────── Helper lemmas ─────────────────────────── -/

/-- When every status fetch stays non-terminal, the bounded
`/api/edit-image` loop runs to its ceiling: from any reachable state it
ends with `pollCount = 60` holding the 60th fetch's prediction. -/
lemma editImagePoll_always_active (fetch : Nat → Prediction)
    (hf : ∀ i, isActiveRepl (fetch i).status = true) :
    ∀ fuel k cur, 60 - k ≤ fuel → k < 60 → isActiveRepl cur.status = true →
      editImagePoll fetch cur k = (60, fetch 59) := by
  intro fuel
  induction fuel with
  | zero => intro k cur hfuel hk _; omega
  | succ fuel ih =>
    intro k cur hfuel hk hcur
    rw [editImagePoll, dif_pos ⟨hcur, hk⟩]
    by_cases h59 : k = 59
    · subst h59
      rw [editImagePoll]
      simp
    · exact ih (k + 1) (fetch k) (by omega) (by omega) (hf k)

/-- The Replicate loop invariant: if fetch `n` is the first non-active
fetch, the loop starting from any earlier fetch index ends right after
fetch `n`. -/
lemma replicatePoll_first_terminal (fetch : Nat → Prediction) (n : Nat)
    (hn : isActiveRepl (fetch n).status = false) :
    ∀ fuel k cur, k ≤ n → (∀ i, k ≤ i → i < n → isActiveRepl (fetch i).status = true) →
      isActiveRepl cur.status = true → n + 1 - k ≤ fuel →
      replicatePoll fetch cur k fuel = some (n + 1, fetch n) := by
  intro fuel
  induction fuel with
  | zero => intro k cur hk _ _ hfuel; omega
  | succ fuel ih =>
    intro k cur hk hbefore hcur hfuel
    rw [replicatePoll, if_pos hcur]
    by_cases hkn : k = n
    · subst hkn
      cases fuel <;> simp [replicatePoll, hn]
    · exact ih (k + 1) (fetch k) (by omega)
        (fun i h1 h2 => hbefore i (by omega) h2)
        (hbefore k (by omega) (by omega)) (by omega)

/-- A value accepted by the `AnglesResponse` schema has 3 to 5 angles. -/
lemma parseAnglesResponse_length (j : Json) (v : List Angle)
    (h : parseAnglesResponse j = some v) : 3 ≤ v.length ∧ v.length ≤ 5 := by
  unfold parseAnglesResponse at h
  split at h <;> try simp_all
  split at h <;> try simp_all
  split at h <;> try simp_all
  obtain ⟨⟨h1, h2⟩, h3⟩ := h
  subst h3
  exact ⟨h1, h2⟩

/-- Characterisation of a successful retry loop: a validated value comes
from the first attempt whose output validates, and the final attempt
counter is one past that attempt's index. -/
lemma anglesLoop_ok_some (gen : Nat → Except String Json) :
    ∀ fuel attempts a v, anglesLoop gen attempts fuel = Except.ok (a, some v) →
      ∃ i, attempts ≤ i ∧ i < attempts + fuel ∧ a = i + 1 ∧
        (∃ raw, gen i = Except.ok raw ∧ parseAnglesResponse raw = some v) ∧
        (∀ j, attempts ≤ j → j < i →
          ∃ rawj, gen j = Except.ok rawj ∧ parseAnglesResponse rawj = none) := by
  intro fuel
  induction fuel with
  | zero => intro attempts a v h; simp [anglesLoop] at h
  | succ fuel ih =>
    intro attempts a v h
    rw [anglesLoop] at h
    cases hg : gen attempts with
    | error e => rw [hg] at h; simp at h
    | ok raw =>
      rw [hg] at h
      dsimp only at h
      cases hp : parseAnglesResponse raw with
      | some w =>
        rw [hp] at h
        simp at h
        obtain ⟨ha, hv⟩ := h
        refine ⟨attempts, le_refl _, by omega, by omega, ⟨raw, hg, by rw [hp, hv]⟩, ?_⟩
        intro j h1 h2; omega
      | none =>
        rw [hp] at h
        obtain ⟨i, hi1, hi2, hi3, hval, hbefore⟩ := ih (attempts + 1) a v h
        refine ⟨i, by omega, by omega, hi3, hval, ?_⟩
        intro j h1 h2
        by_cases hj : j = attempts
        · subst hj; exact ⟨raw, hg, hp⟩
        · exact hbefore j (by omega) h2

/-- Removing a literal head that is literally there leaves the tail. -/
lemma stripLit_append (l xs : List Char) : stripLit l (l ++ xs) = some xs := by
  induction l with
  | nil => rfl
  | cons c ls ih => simp [stripLit, ih]

/-- A successful literal match decomposes the input. -/
lemma stripLit_eq_some (l : List Char) :
    ∀ cs r, stripLit l cs = some r → cs = l ++ r := by
  induction l with
  | nil => intro cs r h; simp [stripLit] at h; simp [h]
  | cons c ls ih =>
    intro cs r h
    cases cs with
    | nil => simp [stripLit] at h
    | cons d cs' =>
      unfold stripLit at h
      split at h
      · rename_i hd
        subst hd
        simp [ih cs' r h]
      · simp at h

/-- `takeWhile`/`dropWhile` split a list at the first failing element. -/
lemma takeWhile_all_cons (p : Char → Bool) :
    ∀ (t : List Char) (c : Char) (l : List Char),
      (∀ x ∈ t, p x = true) → p c = false →
      (t ++ c :: l).takeWhile p = t ∧ (t ++ c :: l).dropWhile p = c :: l := by
  intro t
  induction t with
  | nil => intro c l _ hc; simp [List.takeWhile, List.dropWhile, hc]
  | cons a t ih =>
    intro c l ht hc
    have ha : p a = true := ht a (by simp)
    have := ih c l (fun x hx => ht x (by simp [hx])) hc
    simp [List.takeWhile, List.dropWhile, ha, this.1, this.2]

/-- The animate regex matches a well-formed data-URL prefix and leaves
exactly the payload. -/
lemma matchDataUrl_full (t b : List Char) (htne : t ≠ [])
    (htw : ∀ c ∈ t, isWordChar c = true) :
    matchDataUrl ("data:image/".toList ++ t ++ ";base64,".toList ++ b) = some b := by
  unfold matchDataUrl
  have harr : "data:image/".toList ++ t ++ ";base64,".toList ++ b =
      "data:image/".toList ++ (t ++ (";base64,".toList ++ b)) := by
    simp [List.append_assoc]
  rw [harr, stripLit_append]
  have hsemi : isWordChar ';' = false := by decide
  have hlit2 : (";base64,").toList ++ b = ';' :: ("base64,".toList ++ b) := rfl
  have hsplit := takeWhile_all_cons isWordChar t ';' ("base64,".toList ++ b) htw hsemi
  have hne : t.isEmpty = false := by
    cases t with
    | nil => exact absurd rfl htne
    | cons _ _ => rfl
  dsimp only
  rw [hlit2, hsplit.1, hsplit.2, hne]
  simp only [Bool.false_eq_true, if_false]
  rw [← hlit2]
  exact stripLit_append _ _

/-- Stripping leaves a pure base64 payload unchanged: the regex cannot
match because a base64 string never contains the colon of `data:`. -/
lemma stripDataUrl_base64_id (b : List Char)
    (hb : ∀ c ∈ b, isBase64Char c = true) : stripDataUrl b = b := by
  unfold stripDataUrl matchDataUrl
  cases hm : stripLit ("data:image/".toList) b with
  | none => rfl
  | some r =>
    exfalso
    have hbr : b = "data:image/".toList ++ r := stripLit_eq_some _ b r hm
    have hcolon : (':' : Char) ∈ b := by
      rw [hbr]
      apply List.mem_append_left
      decide
    have := hb ':' hcolon
    simp [isBase64Char] at this

/- ───────────────────────────── Claim theorems ────────────────────────── -/

/-- C1 (amended): for every fetch stream that always reports a non-terminal
(`starting`/`processing`) status, the ceiling-bounded `/api/edit-image`
poll loop stops after exactly 60 polls, holding the 60th fetched
prediction, and the route fails with the 500 `Image edit failed` timeout
error.  (The claim's further assertion that the `generateImageFromPrompt`
and `animateImage` loops are also bounded is refuted separately.) -/
theorem editImage_pollCeiling_timeout (init : Prediction) (fetch : Nat → Prediction)
    (hinit : isActiveRepl init.status = true)
    (hf : ∀ i, isActiveRepl (fetch i).status = true) :
    editImagePoll fetch init 0 = (60, fetch 59) ∧
    editImageRoute init fetch =
      RouteResult.err 500 ("Image edit failed: " ++ editFailureReason (fetch 59)) := by
  have hloop : editImagePoll fetch init 0 = (60, fetch 59) :=
    editImagePoll_always_active fetch hf 60 0 init (by omega) (by omega) hinit
  refine ⟨hloop, ?_⟩
  unfold editImageRoute
  rw [hloop]
  have hs : (fetch 59).status = "starting" ∨ (fetch 59).status = "processing" := by
    have := hf 59
    unfold isActiveRepl at this
    rcases Bool.or_eq_true_iff.mp this with h | h
    · exact Or.inl (by simpa using h)
    · exact Or.inr (by simpa using h)
  unfold editImageRespond
  rcases hs with h | h <;> simp [h]

/-- C1 witness: a vendor that always answers `processing` drives the
`/api/edit-image` loop to exactly 60 polls and a 500 timeout response. -/
theorem editImage_pollCeiling_timeout_witness :
    editImagePoll (fun _ => ⟨"processing", none, none⟩) ⟨"starting", none, none⟩ 0 =
      (60, ⟨"processing", none, none⟩) ∧
    editImageRoute ⟨"starting", none, none⟩ (fun _ => ⟨"processing", none, none⟩) =
      RouteResult.err 500 "Image edit failed: Status: processing" :=
  editImage_pollCeiling_timeout ⟨"starting", none, none⟩
    (fun _ => ⟨"processing", none, none⟩) rfl (fun _ => rfl)

/-- C1 counterexample: the `generateImageFromPrompt` poll loop has no
ceiling — against a vendor that always answers `processing` it is still
polling after 61 iterations, so it does not stop after at most 60 polls
and never raises a timeout error. -/
theorem generateImageFromPrompt_noCeiling_cex :
    replicatePoll (fun _ => ⟨"processing", none, none⟩) ⟨"starting", none, none⟩ 0 61 =
      none :=
  rfl

/-- C2 (amended): the Replicate poll loops stop at the first fetch whose
status is outside `{starting, processing}` — including `canceled` — and
issue exactly that many fetches, none after the terminal one.  (The Runway
loop's behaviour on `CANCELED` is refuted separately.) -/
theorem replicatePoll_stops_at_first_terminal (init : Prediction)
    (fetch : Nat → Prediction) (n fuel : Nat)
    (hinit : isActiveRepl init.status = true)
    (hn : isActiveRepl (fetch n).status = false)
    (hbefore : ∀ i, i < n → isActiveRepl (fetch i).status = true)
    (hfuel : n + 1 ≤ fuel) :
    replicatePoll fetch init 0 fuel = some (n + 1, fetch n) :=
  replicatePoll_first_terminal fetch n hn fuel 0 init (by omega)
    (fun i _ h2 => hbefore i h2) hinit (by omega)

/-- C2 witness: a `processing` fetch followed by a `canceled` fetch stops
the Replicate loop right at the `canceled` fetch: two fetches in total. -/
theorem replicatePoll_stops_at_first_terminal_witness :
    replicatePoll
      (fun i => if i = 0 then (⟨"processing", none, none⟩ : Prediction)
                else ⟨"canceled", none, some "user canceled"⟩)
      ⟨"starting", none, none⟩ 0 5 =
      some (2, ⟨"canceled", none, some "user canceled"⟩) := by
  have := replicatePoll_stops_at_first_terminal ⟨"starting", none, none⟩
    (fun i => if i = 0 then (⟨"processing", none, none⟩ : Prediction)
              else ⟨"canceled", none, some "user canceled"⟩)
    1 5 rfl rfl (by intro i hi; interval_cases i; rfl) (by omega)
  simpa using this

/-- C2 counterexample: the Runway `animateImage` loop observes a
`CANCELED` status on its first fetch and still issues a second status
fetch (two fetches in total), because its exit test only recognises
`SUCCEEDED` and `FAILED`. -/
theorem runwayPoll_polls_after_canceled_cex :
    (( fun i => if i = 0 then (⟨"CANCELED", [], none⟩ : RunwayTask)
                else ⟨"SUCCEEDED", ["https://x/video.mp4"], none⟩) 0).status =
      "CANCELED" ∧
    runwayPoll ( fun i => if i = 0 then (⟨"CANCELED", [], none⟩ : RunwayTask)
                else ⟨"SUCCEEDED", ["https://x/video.mp4"], none⟩) 0 5 =
      some (2, ⟨"SUCCEEDED", ["https://x/video.mp4"], none⟩) :=
  ⟨rfl, rfl⟩

/-- C3: every successful `/api/flavor` angles response is built from a
value accepted by the `AnglesResponse` schema (3 to 5 angles, each with
string title/summary/journey by construction of `Angle`), and that value
is the first attempt's output that validated — all earlier attempts
produced JSON that failed validation. -/
theorem flavorAngles_validated_first_success (gen : Nat → Except String Json)
    (body : Json) (h : flavorAnglesBranch gen = FlavorResp.ok body) :
    ∃ i v, i < 3 ∧
      (∃ raw, gen i = Except.ok raw ∧ parseAnglesResponse raw = some v) ∧
      (∀ j, j < i → ∃ rawj, gen j = Except.ok rawj ∧ parseAnglesResponse rawj = none) ∧
      3 ≤ v.length ∧ v.length ≤ 5 ∧
      body = Json.obj [("angles", Json.arr (v.map angleToJson))] := by
  unfold flavorAnglesBranch at h
  cases hl : anglesLoop gen 0 3 with
  | error e => rw [hl] at h; simp at h
  | ok pr =>
    rw [hl] at h
    obtain ⟨a, ov⟩ := pr
    cases ov with
    | none => simp at h
    | some v =>
      simp at h
      obtain ⟨i, _, hi2, _, hval, hbefore⟩ := anglesLoop_ok_some gen 3 0 a v hl
      obtain ⟨raw, hgen, hparse⟩ := hval
      obtain ⟨hlen1, hlen2⟩ := parseAnglesResponse_length raw v hparse
      exact ⟨i, v, by omega, ⟨raw, hgen, hparse⟩,
        fun j hj => hbefore j (by omega) hj, hlen1, hlen2, h.symm⟩

/-- C3 witness: against a model that always answers a valid 3-angle JSON
object, the angles branch succeeds with a schema-conforming first-attempt
value. -/
theorem flavorAngles_validated_first_success_witness :
    ∃ i v, i < 3 ∧
      (∃ raw, (fun _ => Except.ok goodAnglesJson : Nat → Except String Json) i =
          Except.ok raw ∧ parseAnglesResponse raw = some v) ∧
      (∀ j, j < i → ∃ rawj,
        (fun _ => Except.ok goodAnglesJson : Nat → Except String Json) j =
          Except.ok rawj ∧ parseAnglesResponse rawj = none) ∧
      3 ≤ v.length ∧ v.length ≤ 5 ∧
      Json.obj [("angles", Json.arr (v.map angleToJson))] =
        Json.obj [("angles", Json.arr (v.map angleToJson))] := by
  obtain ⟨i, v, h1, h2, h3, h4, h5, _⟩ :=
    flavorAngles_validated_first_success (fun _ => Except.ok goodAnglesJson)
      (Json.obj [("angles", Json.arr
        [angleJson "Hope" "s1" "j1", angleJson "Grace" "s2" "j2",
         angleJson "Light" "s3" "j3"])]) rfl
  exact ⟨i, v, h1, h2, h3, h4, h5, rfl⟩

/-- C4 (amended): when all three attempts produce JSON that fails the
shape check, the angles branch ends with the attempt counter at exactly
3 and answers the fixed 500 message naming the 3 tries — a constant
message that does not include the last failure reason. -/
theorem flavorAngles_exhausted_after_three (gen : Nat → Except String Json)
    (h : ∀ i, i < 3 → ∃ raw, gen i = Except.ok raw ∧ parseAnglesResponse raw = none) :
    anglesLoop gen 0 3 = Except.ok (3, none) ∧
    flavorAnglesBranch gen =
      FlavorResp.err 500 "Model failed to produce ≥3 angles after 3 tries" := by
  obtain ⟨r0, hg0, hp0⟩ := h 0 (by omega)
  obtain ⟨r1, hg1, hp1⟩ := h 1 (by omega)
  obtain ⟨r2, hg2, hp2⟩ := h 2 (by omega)
  have hloop : anglesLoop gen 0 3 = Except.ok (3, none) := by
    rw [anglesLoop, hg0]
    dsimp only
    rw [hp0, anglesLoop, hg1]
    dsimp only
    rw [hp1, anglesLoop, hg2]
    dsimp only
    rw [hp2, anglesLoop]
  refine ⟨hloop, ?_⟩
  unfold flavorAnglesBranch
  rw [hloop]

/-- C4 witness: a model that always answers an empty JSON object exhausts
the three attempts and triggers the fixed 500 message. -/
theorem flavorAngles_exhausted_after_three_witness :
    anglesLoop (fun _ => Except.ok (Json.obj [])) 0 3 = Except.ok (3, none) ∧
    flavorAnglesBranch (fun _ => Except.ok (Json.obj [])) =
      FlavorResp.err 500 "Model failed to produce ≥3 angles after 3 tries" :=
  flavorAngles_exhausted_after_three (fun _ => Except.ok (Json.obj []))
    (fun _ _ => ⟨Json.obj [], rfl, rfl⟩)

/-- C4 counterexample: two exhausted runs whose last attempts fail for
different reasons (an empty `angles` array versus a missing `angles`
field) produce the exact same error response, so the error cannot carry
the last failure reason. -/
theorem flavorAngles_error_lacks_reason_cex :
    flavorAnglesBranch (fun _ => Except.ok (Json.obj [("angles", Json.arr [])])) =
      FlavorResp.err 500 "Model failed to produce ≥3 angles after 3 tries" ∧
    flavorAnglesBranch (fun _ => Except.ok (Json.obj [])) =
      FlavorResp.err 500 "Model failed to produce ≥3 angles after 3 tries" ∧
    (Except.ok (Json.obj [("angles", Json.arr [])]) : Except String Json) ≠
      Except.ok (Json.obj []) := by
  refine ⟨rfl, rfl, ?_⟩
  intro h
  simp at h

/-- C5 (amended): the Replicate `animateImage` on a `failed` or `canceled`
completed prediction fails with an error carrying the vendor's error
payload verbatim (inside the catch-added wrapper).  (The Runway revision's
behaviour is refuted separately.) -/
theorem replicateFailed_carries_vendor_error (p : ReplicateDone)
    (h : p.status = "failed" ∨ p.status = "canceled") :
    animateImageRepl p =
      Except.error
        ("Replicate API Error: " ++ ("Replicate prediction failed: " ++ p.error)) := by
  unfold animateImageRepl animateHandleResult
  rcases h with h | h <;> simp [h]

/-- C5 witness: a failed Replicate prediction's error text appears
verbatim in the raised error. -/
theorem replicateFailed_carries_vendor_error_witness :
    animateImageRepl ⟨"failed", "", "NSFW content detected"⟩ =
      Except.error "Replicate API Error: Replicate prediction failed: NSFW content detected" :=
  replicateFailed_carries_vendor_error ⟨"failed", "", "NSFW content detected"⟩ (Or.inl rfl)

/-- C5 counterexample: the Runway `animateImage` throws the constant
message `Runway task failed` — two failed tasks with different vendor
error payloads yield the identical error, so the payload is not carried. -/
theorem runwayFailed_drops_vendor_error_cex :
    runwayAnimate (fun _ => ⟨"FAILED", [], some "gpu quota exceeded"⟩) 5 =
      some (Except.error "Runway task failed") ∧
    runwayAnimate (fun _ => ⟨"FAILED", [], some "invalid input image"⟩) 5 =
      some (Except.error "Runway task failed") ∧
    ("gpu quota exceeded" : String) ≠ "invalid input image" :=
  ⟨rfl, rfl, by decide⟩

/-- C6 (amended): the typography temp file survives `generateFinalImage`
exactly when the download succeeded (so the file was written) and the
chat or edit call then failed: cleanup is guaranteed on the success and
malformed-response paths but not on those two failure paths. -/
theorem generateFinalImage_tempfile_charac (env : FinalEnv) :
    (generateFinalImage env).2 = (env.downloadOk && (!env.chatOk || !env.editOk)) := by
  unfold generateFinalImage
  cases h1 : env.downloadOk <;> cases h2 : env.chatOk <;> cases h3 : env.editOk <;>
    simp [h1, h2, h3]
  split
  · rfl
  · split <;> rfl

/-- C6 counterexample: when the image-edit call throws after the temp file
was written, `generateFinalImage` propagates the failure with the temp
file still on disk — cleanup is not guaranteed on this failure path. -/
theorem generateFinalImage_tempfile_leak_cex :
    (generateFinalImage leakEnv).1 =
      Except.error "Failed to generate final image: edit call failed" ∧
    (generateFinalImage leakEnv).2 = true :=
  ⟨rfl, rfl⟩

/-- C7 (amended): every successful validated angle generation responds
with the body `{angles: [...]}` built from the validated value and
nothing else — in particular the body carries no `attemptsUsed` field. -/
theorem flavorAngles_success_body_no_attemptsUsed (gen : Nat → Except String Json)
    (a : Nat) (v : List Angle)
    (h : anglesLoop gen 0 3 = Except.ok (a, some v)) :
    flavorAnglesBranch gen =
      FlavorResp.ok (Json.obj [("angles", Json.arr (v.map angleToJson))]) ∧
    respField (flavorAnglesBranch gen) "attemptsUsed" = none := by
  have hb : flavorAnglesBranch gen =
      FlavorResp.ok (Json.obj [("angles", Json.arr (v.map angleToJson))]) := by
    unfold flavorAnglesBranch
    rw [h]
  refine ⟨hb, ?_⟩
  rw [hb]
  simp [respField, lookupField, List.find?]

/-- C7 witness: a successful run returns only the angles array, with no
`attemptsUsed` field in the body. -/
theorem flavorAngles_success_body_no_attemptsUsed_witness :
    flavorAnglesBranch (fun _ => Except.ok goodAnglesJson) =
      FlavorResp.ok (Json.obj [("angles", Json.arr
        (([⟨"Hope", "s1", "j1"⟩, ⟨"Grace", "s2", "j2"⟩, ⟨"Light", "s3", "j3"⟩] :
          List Angle).map angleToJson))]) ∧
    respField (flavorAnglesBranch (fun _ => Except.ok goodAnglesJson)) "attemptsUsed" =
      none :=
  flavorAngles_success_body_no_attemptsUsed (fun _ => Except.ok goodAnglesJson) 1
    [⟨"Hope", "s1", "j1"⟩, ⟨"Grace", "s2", "j2"⟩, ⟨"Light", "s3", "j3"⟩] rfl

/-- C7 counterexample: a concrete successful response whose body holds
exactly one field, `angles`, and no `attemptsUsed` count — refuting the
claimed `{angles, attemptsUsed}` response shape. -/
theorem flavorAngles_body_lacks_attemptsUsed_cex :
    flavorAnglesBranch (fun _ => Except.ok goodAnglesJson) =
      FlavorResp.ok (Json.obj [("angles", Json.arr
        [angleJson "Hope" "s1" "j1", angleJson "Grace" "s2" "j2",
         angleJson "Light" "s3" "j3"])]) ∧
    respField (flavorAnglesBranch (fun _ => Except.ok goodAnglesJson)) "attemptsUsed" =
      none ∧
    respField (flavorAnglesBranch (fun _ => Except.ok goodAnglesJson)) "angles" =
      some (Json.arr [angleJson "Hope" "s1" "j1", angleJson "Grace" "s2" "j2",
        angleJson "Light" "s3" "j3"]) :=
  ⟨rfl, rfl, rfl⟩

/-- C8: `/api/generate-final` with a method outside
`{edit, generate, responses}` behaves exactly as with `edit`: the switch's
default branch invokes the same `generateFinalImage` strategy. -/
theorem generateFinal_unknown_method_uses_edit (method : String) (env : FinalEnv)
    (h1 : method ≠ "edit") (h2 : method ≠ "generate") (h3 : method ≠ "responses") :
    generateFinalRoute method env = generateFinalRoute "edit" env := by
  unfold generateFinalRoute
  simp [h1, h2, h3]

/-- C8 witness: the unknown method `vision` yields the same route result
as `edit`. -/
theorem generateFinal_unknown_method_uses_edit_witness :
    ("vision" ≠ "edit" ∧
      generateFinalRoute "vision" leakEnv = generateFinalRoute "edit" leakEnv) :=
  ⟨by decide, generateFinal_unknown_method_uses_edit "vision" leakEnv
    (by decide) (by decide) (by decide)⟩

/-- C9: the `/api/animate` data-URL stripping is prefix-insensitive and
idempotent on base64 payloads: for any word-character image type `t` and
base64 payload `b`, stripping the prefixed string yields `b`, stripping
the bare payload is the identity, and stripping an already-stripped
string is the identity. -/
theorem animate_stripDataUrl_prefix_insensitive (t b : List Char) (htne : t ≠ [])
    (htw : ∀ c ∈ t, isWordChar c = true)
    (hb : ∀ c ∈ b, isBase64Char c = true) :
    stripDataUrl ("data:image/".toList ++ t ++ ";base64,".toList ++ b) = b ∧
    stripDataUrl b = b ∧
    stripDataUrl (stripDataUrl ("data:image/".toList ++ t ++ ";base64,".toList ++ b)) =
      b := by
  have hstrip1 : stripDataUrl ("data:image/".toList ++ t ++ ";base64,".toList ++ b) = b := by
    unfold stripDataUrl
    rw [matchDataUrl_full t b htne htw]
    rfl
  exact ⟨hstrip1, stripDataUrl_base64_id b hb,
    by rw [hstrip1]; exact stripDataUrl_base64_id b hb⟩

/-- C9 witness: stripping a concrete `data:image/png;base64,` prefix
yields the payload, and stripping the payload itself changes nothing. -/
theorem animate_stripDataUrl_prefix_insensitive_witness :
    stripDataUrl ("data:image/".toList ++ "png".toList ++ ";base64,".toList ++
      "QUJDRA==".toList) = "QUJDRA==".toList ∧
    stripDataUrl "QUJDRA==".toList = "QUJDRA==".toList ∧
    stripDataUrl (stripDataUrl ("data:image/".toList ++ "png".toList ++
      ";base64,".toList ++ "QUJDRA==".toList)) = "QUJDRA==".toList :=
  animate_stripDataUrl_prefix_insensitive "png".toList "QUJDRA==".toList
    (by decide) (by decide) (by decide)

/-- C10: every `/api/aroma` request missing one of the five fields, or
whose type is outside the seven-value whitelist, is answered with a 400
and never reaches `generateCommunicationDraft`. -/
theorem aroma_invalid_request_rejected_no_draft (r : AromaReq)
    (h : r.type = none ∨ r.topic = none ∨ r.keyPoints = none ∨ r.tone = none ∨
         r.audience = none ∨ (∀ s, r.type = some s → s ∉ validTypes)) :
    aromaRoute r = (400, false) := by
  unfold aromaRoute
  rcases h with h | h | h | h | h | h
  · simp [h, optTruthy]
  · simp [h, optTruthy]
  · simp [h, optTruthy]
  · simp [h, optTruthy]
  · simp [h, optTruthy]
  · cases ht : r.type with
    | none => simp [ht, optTruthy]
    | some s =>
      have hs : s ∉ validTypes := h s ht
      have hc : validTypes.contains s = false := by
        simpa using hs
      simp [ht, hc]
      intro _ _ _ _ _
      exact hs

/-- C10 witness: a request with the unknown type `blog-post` is rejected
with a 400 and no draft is generated. -/
theorem aroma_invalid_request_rejected_no_draft_witness :
    aromaRoute ⟨some "blog-post", some "t", some "k", some "warm", some "youth"⟩ =
      (400, false) :=
  aroma_invalid_request_rejected_no_draft _
    (Or.inr (Or.inr (Or.inr (Or.inr (Or.inr (by intro s h; cases h; decide))))))
